import Mathlib

/-!
Shallow embedding of the `cloudfront-s3-oac` CDK application
(`src/cloudfront-s3-oac/cloudfront_s3_stack.py` and
`src/cloudfront-s3-oac/app.py`).

The stack body has no control flow: it builds a fixed set of resource
descriptors parameterised only by the stack's target environment
(account and region, each possibly absent).  We embed the construction
as a total function from that environment to a `StackGraph` record.
Template-level values (CloudFormation intrinsics produced by CDK token
resolution) are modelled by the inductive type `TVal`: string literals,
`Ref`/`Fn::GetAtt` references to resources of the same graph, the
`AWS::AccountId` pseudo parameter, and `Fn::Join` concatenations, which
is how the Python f-strings over unresolved tokens synthesize.
-/

namespace CloudFrontS3Oac

/-- An atomic CloudFormation-style template value. -/
inductive TAtom where
  | lit (s : String)
  | ref (logicalId : String)
  | getAtt (logicalId : String) (attr : String)
  | pseudoAccountId
  deriving DecidableEq, Repr

/-- Whether an atomic template value contains a literal `*` wildcard
character. -/
def TAtom.containsWildcard : TAtom → Bool
  | .lit s => s.data.any fun c => c = '*'
  | .ref _ => false
  | .getAtt _ _ => false
  | .pseudoAccountId => false

/-- A CloudFormation-style template value as produced by CDK synthesis:
either an atom or an `Fn::Join` concatenation of atoms. -/
inductive TVal where
  | atom (a : TAtom)
  | join (parts : List TAtom)
  deriving DecidableEq, Repr

/-- Abbreviation for a literal template value. -/
def TVal.lit (s : String) : TVal := .atom (.lit s)

/-- Abbreviation for a `Ref` template value. -/
def TVal.ref (logicalId : String) : TVal := .atom (.ref logicalId)

/-- Abbreviation for an `Fn::GetAtt` template value. -/
def TVal.getAtt (logicalId attr : String) : TVal := .atom (.getAtt logicalId attr)

/-- Whether a template value contains a literal `*` wildcard character. -/
def TVal.containsWildcard : TVal → Bool
  | .atom a => a.containsWildcard
  | .join parts => parts.any TAtom.containsWildcard

/-- The stack's target environment, from `cdk.Environment(account=..., region=...)`.
Either field may be absent when the corresponding environment variable is unset. -/
structure StackEnv where
  account : Option String
  region : Option String
  deriving DecidableEq, Repr

/-- The value of `self.account` inside the stack: the concrete account when the
environment supplies one, otherwise the `AWS::AccountId` pseudo parameter token. -/
def stackAccount (env : StackEnv) : TAtom :=
  match env.account with
  | some a => .lit a
  | none => .pseudoAccountId

/-- `RemovalPolicy` from `aws_cdk`. -/
inductive RemovalPolicy where
  | destroy
  | retain
  deriving DecidableEq, Repr

/-- `aws_kms.Key` properties used by the stack. -/
structure KmsKeyProps where
  description : String
  enableKeyRotation : Bool
  removalPolicy : RemovalPolicy
  deriving DecidableEq, Repr

/-- `aws_kms.Alias` properties used by the stack. -/
structure KmsAliasProps where
  aliasName : String
  targetKey : String
  deriving DecidableEq, Repr

/-- The four S3 public-access settings; `s3.BlockPublicAccess.BLOCK_ALL`
sets all four to `true`. -/
structure BlockPublicAccess where
  blockPublicAcls : Bool
  blockPublicPolicy : Bool
  ignorePublicAcls : Bool
  restrictPublicBuckets : Bool
  deriving DecidableEq, Repr

/-- `s3.BlockPublicAccess.BLOCK_ALL`. -/
def BlockPublicAccess.blockAll : BlockPublicAccess :=
  { blockPublicAcls := true
    blockPublicPolicy := true
    ignorePublicAcls := true
    restrictPublicBuckets := true }

/-- `s3.BucketEncryption` variants. -/
inductive BucketEncryption where
  | s3Managed
  | kms
  | kmsManaged
  | unencrypted
  deriving DecidableEq, Repr

/-- `aws_s3.Bucket` properties used by the stack. -/
structure BucketProps where
  bucketName : String
  blockPublicAccess : BlockPublicAccess
  encryption : BucketEncryption
  encryptionKey : String
  bucketKeyEnabled : Bool
  versioned : Bool
  removalPolicy : RemovalPolicy
  deriving DecidableEq, Repr

/-- `cloudfront.CfnOriginAccessControl.OriginAccessControlConfigProperty`. -/
structure OriginAccessControlConfig where
  name : String
  originAccessControlOriginType : String
  signingBehavior : String
  signingProtocol : String
  deriving DecidableEq, Repr

/-- `cloudfront.ViewerProtocolPolicy` variants. -/
inductive ViewerProtocolPolicy where
  | allowAll
  | redirectToHttps
  | httpsOnly
  deriving DecidableEq, Repr

/-- `cloudfront.BehaviorOptions` as used by the stack: the origin is an
`origins.S3Origin` over the bucket with `origin_access_identity=None`. -/
structure BehaviorOptions where
  originBucket : String
  originAccessIdentity : Option String
  viewerProtocolPolicy : ViewerProtocolPolicy
  cachePolicy : String
  originRequestPolicy : String
  deriving DecidableEq, Repr

/-- `cloudfront.Distribution` properties used by the stack. -/
structure DistributionProps where
  defaultBehavior : BehaviorOptions
  defaultRootObject : String
  comment : String
  deriving DecidableEq, Repr

/-- One condition entry of an IAM policy statement:
operator, condition key and value. -/
structure PolicyCondition where
  op : String
  key : String
  value : TVal
  deriving DecidableEq, Repr

/-- An IAM policy statement as it appears in the synthesized template. -/
structure PolicyStatementDoc where
  effect : String
  principalService : String
  actions : List String
  resources : List TVal
  conditions : List PolicyCondition
  deriving DecidableEq, Repr

/-- `s3.CfnBucketPolicy` properties used by the stack. -/
structure BucketPolicyProps where
  bucket : TVal
  statements : List PolicyStatementDoc
  deriving DecidableEq, Repr

/-- One `CfnOutput` of the stack. -/
structure OutputDef where
  logicalId : String
  value : TVal
  description : String
  deriving DecidableEq, Repr

/-- The full resource graph declared by one construction of the stack. -/
structure StackGraph where
  kmsKey : KmsKeyProps
  kmsAlias : KmsAliasProps
  s3Bucket : BucketProps
  originAccessControl : OriginAccessControlConfig
  distribution : DistributionProps
  propertyOverrides : List (String × TVal)
  s3BucketPolicy : BucketPolicyProps
  kmsKeyPolicyStatements : List PolicyStatementDoc
  dependencies : List (String × String)
  outputs : List OutputDef
  deriving DecidableEq, Repr

/-- The `AWS:SourceArn` value of the bucket policy condition:
`f"arn:aws:cloudfront::{self.account}:distribution/{distribution.distribution_id}"`,
where `distribution.distribution_id` synthesizes to a `Ref` of the
distribution resource. -/
def bucketPolicyConditionArn (env : StackEnv) : TVal :=
  .join [.lit "arn:aws:cloudfront::", stackAccount env,
         .lit ":distribution/", .ref "CloudFrontDistribution"]

/-- The `AWS:SourceArn` value of the KMS key policy condition:
`f"arn:aws:cloudfront::{self.account}:distribution/*"`. -/
def kmsPolicyConditionArn (env : StackEnv) : TVal :=
  .join [.lit "arn:aws:cloudfront::", stackAccount env,
         .lit ":distribution/*"]

/-- The single statement of the bucket policy document
(lines 90-107 of `cloudfront_s3_stack.py`). -/
def s3BucketPolicyStatement (env : StackEnv) : PolicyStatementDoc :=
  { effect := "Allow"
    principalService := "cloudfront.amazonaws.com"
    actions := ["s3:GetObject"]
    resources := [.join [.getAtt "S3Bucket" "Arn", .lit "/*"]]
    conditions := [{ op := "StringEquals"
                     key := "AWS:SourceArn"
                     value := bucketPolicyConditionArn env }] }

/-- The `iam.PolicyStatement` added to the KMS key's resource policy
(lines 114-127 of `cloudfront_s3_stack.py`). -/
def kmsPolicyStatement (env : StackEnv) : PolicyStatementDoc :=
  { effect := "Allow"
    principalService := "cloudfront.amazonaws.com"
    actions := ["kms:Decrypt", "kms:GenerateDataKey"]
    resources := [.lit "*"]
    conditions := [{ op := "StringLike"
                     key := "AWS:SourceArn"
                     value := kmsPolicyConditionArn env }] }

/-- The body of `CloudFrontS3Stack.__init__`: one construction of the stack,
as a function of its target environment. -/
def buildStack (env : StackEnv) : StackGraph :=
  { kmsKey :=
      { description := "KMS Key for S3 bucket encryption"
        enableKeyRotation := true
        removalPolicy := .destroy }
    kmsAlias :=
      { aliasName := "alias/s3"
        targetKey := "S3KMSKey" }
    s3Bucket :=
      { bucketName := "bucket-prueba-dummy-oac"
        blockPublicAccess := BlockPublicAccess.blockAll
        encryption := .kms
        encryptionKey := "S3KMSKey"
        bucketKeyEnabled := true
        versioned := true
        removalPolicy := .destroy }
    originAccessControl :=
      { name := "S3-OAC"
        originAccessControlOriginType := "s3"
        signingBehavior := "always"
        signingProtocol := "sigv4" }
    distribution :=
      { defaultBehavior :=
          { originBucket := "S3Bucket"
            originAccessIdentity := none
            viewerProtocolPolicy := .redirectToHttps
            cachePolicy := "CACHING_OPTIMIZED"
            originRequestPolicy := "CORS_S3_ORIGIN" }
        defaultRootObject := "index.html"
        comment := "CloudFront distribution for S3 bucket with OAC" }
    propertyOverrides :=
      [("DistributionConfig.Origins.0.S3OriginConfig.OriginAccessIdentity",
        .lit ""),
       ("DistributionConfig.Origins.0.OriginAccessControlId",
        .getAtt "OriginAccessControl" "Id")]
    s3BucketPolicy :=
      { bucket := .ref "S3Bucket"
        statements := [s3BucketPolicyStatement env] }
    kmsKeyPolicyStatements := [kmsPolicyStatement env]
    dependencies := [("S3BucketPolicy", "CloudFrontDistribution")]
    outputs :=
      [{ logicalId := "BucketName"
         value := .ref "S3Bucket"
         description := "Name of the S3 bucket" },
       { logicalId := "KMSKeyId"
         value := .ref "S3KMSKey"
         description := "KMS Key ID" },
       { logicalId := "KMSKeyAlias"
         value := .lit "alias/s3"
         description := "KMS Key Alias" },
       { logicalId := "CloudFrontDistributionId"
         value := .ref "CloudFrontDistribution"
         description := "CloudFront Distribution ID" },
       { logicalId := "CloudFrontDomainName"
         value := .getAtt "CloudFrontDistribution" "DomainName"
         description := "CloudFront Distribution Domain Name" },
       { logicalId := "OriginAccessControlId"
         value := .getAtt "OriginAccessControl" "Id"
         description := "Origin Access Control ID" }] }

/-- The environment variable name consulted for the account in `app.py`. -/
def accountEnvVarName : String := "ACCOUNT_ID_ENV_VAR"

/-- The environment variable name consulted for the region in `app.py`
(literally the region string `us-east-1`). -/
def regionEnvVarName : String := "us-east-1"

/-- `app.py`: form the `cdk.Environment` from the process environment
(`os.getenv` modelled as a lookup function returning `none` when unset). -/
def mkAppEnvironment (getenv : String → Option String) : StackEnv :=
  { account := getenv accountEnvVarName
    region := getenv regionEnvVarName }

/-- `app.py` end to end: read the environment and construct the stack. -/
def appMain (getenv : String → Option String) : StackGraph :=
  buildStack (mkAppEnvironment getenv)

/-- The account component embedded in a source-ARN condition value,
when the value is a join whose second part is that component. -/
def conditionArnAccount : TVal → Option TAtom
  | .join (_ :: a :: _) => some a
  | _ => none

/-- The final component of a joined source-ARN condition value, which for
these ARNs is the distribution-identifier part. -/
def conditionArnLastPart : TVal → Option TAtom
  | .join parts => parts.getLast?
  | _ => none

/-- Claim C1: for every construction of the stack, the bucket policy
contains exactly one statement with exactly one condition, a
`StringEquals` on `AWS:SourceArn` whose value is the ARN of this stack's
own distribution, built by joining the fixed ARN prefix, the stack's
account, the `:distribution/` separator and a reference to the stack's
distribution resource; the distribution-identifier part is that
reference, never a wildcard, and no fixed literal part of the ARN
contains a wildcard. -/
theorem bucketPolicy_single_condition_own_distribution (env : StackEnv) :
    (buildStack env).s3BucketPolicy.statements =
      [{ effect := "Allow"
         principalService := "cloudfront.amazonaws.com"
         actions := ["s3:GetObject"]
         resources := [.join [.getAtt "S3Bucket" "Arn", .lit "/*"]]
         conditions := [{ op := "StringEquals"
                          key := "AWS:SourceArn"
                          value := .join [.lit "arn:aws:cloudfront::",
                                          stackAccount env,
                                          .lit ":distribution/",
                                          .ref "CloudFrontDistribution"] }] }] ∧
    (((buildStack env).s3BucketPolicy.statements.map fun st =>
        st.conditions.map fun c => conditionArnLastPart c.value) =
      [[some (.ref "CloudFrontDistribution")]]) ∧
    (TAtom.ref "CloudFrontDistribution").containsWildcard = false ∧
    (TAtom.lit "arn:aws:cloudfront::").containsWildcard = false ∧
    (TAtom.lit ":distribution/").containsWildcard = false :=
  ⟨rfl, rfl, rfl, by decide, by decide⟩

/-- Claim C2: every construction of the stack declares an explicit
ordering edge making the bucket policy depend on the distribution
resource, recorded in the graph's dependency list rather than implied by
declaration order. -/
theorem bucketPolicy_explicit_dependency_on_distribution (env : StackEnv) :
    (buildStack env).dependencies = [("S3BucketPolicy", "CloudFrontDistribution")] ∧
    ("S3BucketPolicy", "CloudFrontDistribution") ∈ (buildStack env).dependencies :=
  ⟨rfl, List.Mem.head _⟩

/-- Claim C3: for every construction of the stack, the key-access trust
statement added to the encryption key carries exactly one condition, a
`StringLike` on `AWS:SourceArn` whose value fixes the stack's account
and wildcards the distribution identifier (`:distribution/*`); the
statement is never unconditional. -/
theorem kmsPolicy_condition_account_scoped (env : StackEnv) :
    (buildStack env).kmsKeyPolicyStatements =
      [{ effect := "Allow"
         principalService := "cloudfront.amazonaws.com"
         actions := ["kms:Decrypt", "kms:GenerateDataKey"]
         resources := [.lit "*"]
         conditions := [{ op := "StringLike"
                          key := "AWS:SourceArn"
                          value := .join [.lit "arn:aws:cloudfront::",
                                          stackAccount env,
                                          .lit ":distribution/*"] }] }] ∧
    (∀ st ∈ (buildStack env).kmsKeyPolicyStatements, st.conditions ≠ []) :=
  ⟨rfl, by intro st hst; simp [buildStack, kmsPolicyStatement] at hst; subst hst; simp⟩

/-- Claim C4: for every construction of the stack, regardless of the
account and region parameters, the bucket's public-access configuration
blocks all four public-access settings. -/
theorem bucket_public_access_fully_blocked (env : StackEnv) :
    (buildStack env).s3Bucket.blockPublicAccess =
      { blockPublicAcls := true
        blockPublicPolicy := true
        ignorePublicAcls := true
        restrictPublicBuckets := true } :=
  rfl

/-- Claim C5: constructing the stack twice with identical account and
region parameters yields identical resource graphs: the construction is
a deterministic function of its environment with no other source of
variation. -/
theorem buildStack_deterministic (e₁ e₂ : StackEnv) (h : e₁ = e₂) :
    buildStack e₁ = buildStack e₂ := by
  rw [h]

/-- Witness for the determinism theorem at a concrete environment. -/
theorem buildStack_deterministic_witness :
    buildStack { account := some "123456789012", region := some "us-east-1" } =
      buildStack { account := some "123456789012", region := some "us-east-1" } :=
  buildStack_deterministic _ _ rfl

/-- Claim C6: the region parameter of the stack's target environment is
read from the environment variable literally named `us-east-1`, while
the account parameter is read from the environment variable named
`ACCOUNT_ID_ENV_VAR`. -/
theorem region_read_from_region_literal_var (getenv : String → Option String) :
    (mkAppEnvironment getenv).region = getenv "us-east-1" ∧
    (mkAppEnvironment getenv).account = getenv "ACCOUNT_ID_ENV_VAR" ∧
    regionEnvVarName = "us-east-1" ∧
    accountEnvVarName = "ACCOUNT_ID_ENV_VAR" :=
  ⟨rfl, rfl, rfl, rfl⟩

/-- Claim C7: for every construction of the stack, the distribution's
default root object equals the fixed value `index.html`; no input
parameter changes it. -/
theorem defaultRootObject_fixed (env : StackEnv) :
    (buildStack env).distribution.defaultRootObject = "index.html" :=
  rfl

/-- Claim C8: in every constructed graph, the account component embedded
in the bucket policy's source-ARN condition and the account component
embedded in the key policy's source-ARN condition are the same value,
namely the stack's own account. -/
theorem condition_accounts_coincide (env : StackEnv) :
    (((buildStack env).s3BucketPolicy.statements.map fun st =>
        st.conditions.map fun c => conditionArnAccount c.value) =
      [[some (stackAccount env)]]) ∧
    (((buildStack env).kmsKeyPolicyStatements.map fun st =>
        st.conditions.map fun c => conditionArnAccount c.value) =
      [[some (stackAccount env)]]) :=
  ⟨rfl, rfl⟩

/-- Claim C9: in every constructed graph, the distribution's first
origin has its legacy `OriginAccessIdentity` property overridden to the
empty string and its `OriginAccessControlId` property set to the origin
access control's identifier attribute; the behavior's own origin passes
no origin access identity. -/
theorem origin_wired_through_oac_only (env : StackEnv) :
    (buildStack env).propertyOverrides =
      [("DistributionConfig.Origins.0.S3OriginConfig.OriginAccessIdentity",
        .lit ""),
       ("DistributionConfig.Origins.0.OriginAccessControlId",
        .getAtt "OriginAccessControl" "Id")] ∧
    (buildStack env).distribution.defaultBehavior.originAccessIdentity = none :=
  ⟨rfl, rfl⟩

/-- Claim C10: when either environment variable consulted at entry is
unset, the lookup yields `none` and stack construction still proceeds,
producing the full graph with the account resolved to the pseudo
parameter; no validation rejects the absent parameters. -/
theorem construction_proceeds_when_env_unset (getenv : String → Option String)
    (ha : getenv "ACCOUNT_ID_ENV_VAR" = none)
    (hr : getenv "us-east-1" = none) :
    mkAppEnvironment getenv = { account := none, region := none } ∧
    appMain getenv = buildStack { account := none, region := none } ∧
    stackAccount (mkAppEnvironment getenv) = .pseudoAccountId ∧
    (appMain getenv).s3Bucket.bucketName = "bucket-prueba-dummy-oac" := by
  have henv : mkAppEnvironment getenv = { account := none, region := none } := by
    simp [mkAppEnvironment, accountEnvVarName, regionEnvVarName, ha, hr]
  refine ⟨henv, ?_, ?_, rfl⟩
  · simp [appMain, henv]
  · rw [henv]; rfl

/-- Witness for the unset-environment theorem at the empty environment. -/
theorem construction_proceeds_when_env_unset_witness :
    ((fun _ : String => (none : Option String)) "ACCOUNT_ID_ENV_VAR" = none) ∧
    ((fun _ : String => (none : Option String)) "us-east-1" = none) ∧
    (mkAppEnvironment (fun _ => none) = { account := none, region := none } ∧
     appMain (fun _ => none) = buildStack { account := none, region := none } ∧
     stackAccount (mkAppEnvironment (fun _ => none)) = .pseudoAccountId ∧
     (appMain (fun _ => none)).s3Bucket.bucketName = "bucket-prueba-dummy-oac") :=
  ⟨rfl, rfl, construction_proceeds_when_env_unset (fun _ => none) rfl rfl⟩

end CloudFrontS3Oac
